import Mathlib

/-! The MySQL outbox binding of goharvest (`src/mysql.go`)

A shallow embedding of `mysqlDB.Mark`, `mysqlDB.Purge`, `mysqlDB.Reset` and
`newMySQLBinding`, followed by the properties established about them.

Conventions of the embedding:
* a Go `error` is an `Option GoError`, `none` being `nil`;
* a Go multi-value return `(x, err)` is a pair or a structure with both parts;
* a slice that may be `nil` is an `Option (List _)`, `none` being `nil`;
* a pointer that may be `nil` is an `Option`;
* `int` and `int64` are `Int`: the code performs no arithmetic on them;
* what the store answers (query, cursor, `Exec`, `Prepare`) is input data;
* the largest capacity for which `make` returns is a parameter, `maxCap`.
-/

namespace Goharvest

/-! ## Data model -/

/-- Go `error` values met by the binding: errors handed over by the storage layer, the error
with which database/sql refuses a scan destination that is not a pointer (kept with the
index of the column), and the error `Mark` builds with `fmt.Errorf` at line 102 (kept with
its two numbers). -/
inductive GoError where
  | storage (msg : String)
  | destinationNotPointer (column : Nat)
  | unequalHeaders (numKeys numValues : Nat)
  deriving DecidableEq, Repr

/-- Outcome of a Go call: it returns a value, or it panics. -/
inductive GoResult (α : Type) where
  | panicked
  | returned (v : α)
  deriving DecidableEq, Repr

/-- The `uuid.UUID` leader token: opaque, compared by equality only. -/
abbrev UUID := Nat

/-- Modelled from the spec: the `KafkaHeader` type is declared outside `src/`; `Mark` builds
it positionally from one key and one value (line 107). -/
structure KafkaHeader where
  Key : String
  Value : String
  deriving DecidableEq, Repr

/-- Modelled from the spec: the `OutboxRecord` type is declared outside `src/`; the fields are
the ones `Mark` fills (lines 85-95 and 105), with the nullable ones as options. -/
structure OutboxRecord where
  ID : Int
  CreateTime : Int
  KafkaTopic : String
  KafkaKey : String
  KafkaValue : Option String
  KafkaHeaders : List KafkaHeader
  LeaderID : Option UUID
  deriving DecidableEq, Repr

/-- The zero value `OutboxRecord{}` of line 81. -/
def emptyRecord : OutboxRecord :=
  { ID := 0, CreateTime := 0, KafkaTopic := "", KafkaKey := "", KafkaValue := none,
    KafkaHeaders := [], LeaderID := none }

/-- One row under the cursor: the eight selected columns as persisted, and the error, if
any, that `rows.Scan` meets before it reaches its sixth destination (a column count that
differs from the number of destinations, one of the first five columns that cannot be
converted). -/
structure Row where
  id : Int
  createTime : Int
  kafkaTopic : String
  kafkaKey : String
  kafkaValue : Option String
  kafkaHeaderKeys : List String
  kafkaHeaderValues : List String
  leaderID : Option UUID
  earlyErr : Option String
  deriving DecidableEq, Repr

/-- The `*sql.Rows` cursor: the rows for which `rows.Next()` answers true, in arrival order,
and the error that ended the iteration (`rows.Err()`, `none` at a normal end). -/
structure Rows where
  items : List Row
  iterErr : Option GoError
  deriving DecidableEq, Repr

/-- The pair `(rows, err)` returned by `markStmt.Query(leaderID, limit)`. -/
structure QueryOutcome where
  rows : Rows
  err : Option GoError
  deriving DecidableEq, Repr

/-- The `sql.Result` of an `Exec`: what `RowsAffected()` returns, count and error. -/
structure SqlResult where
  affected : Int
  affectedErr : Option GoError
  deriving DecidableEq, Repr

/-- The pair `(res, err)` returned by `stmt.Exec(id)`. -/
structure ExecOutcome where
  res : SqlResult
  err : Option GoError
  deriving DecidableEq, Repr

/-- The receiver of the data operations: each prepared statement is what it answers when it
is run with the given arguments. -/
structure mysqlDB where
  markStmt : UUID → Int → QueryOutcome
  purgeStmt : Int → ExecOutcome
  resetStmt : Int → ExecOutcome

/-! ## `Mark` (lines 72-117) -/

/-- The call `rows.Scan(&record.ID, ..., keys, values, ..., &record.LeaderID)` of lines 84-96.
database/sql assigns the destinations in order and accepts only pointers. The first five
destinations are pointers into `record` and receive their columns. The sixth, `keys`, is a
`[]string` passed by value (line 90): database/sql refuses it with "destination not a
pointer", reported for column index 5, so the call returns an error for every row. Being
passed by value, `keys` and `values` are not among the things the call can change and are
not part of what is returned. -/
def rowsScan (row : Row) (record : OutboxRecord) (_keys _values : List String) :
    OutboxRecord × Option GoError :=
  match row.earlyErr with
  | some msg => (record, some (GoError.storage msg))
  | none =>
    ({ record with
        ID := row.id, CreateTime := row.createTime, KafkaTopic := row.kafkaTopic,
        KafkaKey := row.kafkaKey, KafkaValue := row.kafkaValue },
      some (GoError.destinationNotPointer 5))

/-- The local variables of one iteration right after the call of `rows.Scan`. -/
structure ScanFrame where
  record : OutboxRecord
  keys : List String
  values : List String
  err : Option GoError
  deriving DecidableEq, Repr

/-- Lines 81-96: `record`, `keys` and `values` are declared (the two slices nil) and
`rows.Scan` is called. -/
def scanFrame (row : Row) : ScanFrame :=
  let record := emptyRecord
  let keys : List String := []
  let values : List String := []
  let scanned := rowsScan row record keys values
  { record := scanned.1, keys := keys, values := values, err := scanned.2 }

/-- Lines 105-108: `make(KafkaHeaders, numKeys)` filled with `KafkaHeader{keys[i], values[i]}`
for `i` from `0` to `numKeys - 1`. -/
def pairHeaders (numKeys : Nat) (keys values : List String) : List KafkaHeader :=
  (List.range numKeys).map (fun i => { Key := keys.getD i "", Value := values.getD i "" })

/-- The body of the loop (lines 81-109) for one row: an early `return nil, err`
(`Except.error err`) or the record that is appended to `records`. -/
def markRow (row : Row) : Except GoError OutboxRecord :=
  let frame := scanFrame row
  match frame.err with
  | some err => Except.error err
  | none =>
    let numKeys := frame.keys.length
    if frame.keys.length ≠ frame.values.length then
      Except.error (GoError.unequalHeaders numKeys frame.values.length)
    else
      Except.ok { frame.record with
        KafkaHeaders := pairHeaders numKeys frame.keys frame.values }

/-- The loop `for rows.Next() { ... }` of lines 80-110 over the rows the cursor delivers,
with the records appended so far. -/
def markLoop : List Row → List OutboxRecord → Except GoError (List OutboxRecord)
  | [], records => Except.ok records
  | row :: rest, records =>
    match markRow row with
    | Except.error err => Except.error err
    | Except.ok record => markLoop rest (records ++ [record])

/-- One pass of the insertion sort: `x` is moved towards the front of the sorted part, held
here from its last element to its first, as long as `less x` holds of the element before. -/
def insertLess {α : Type} (less : α → α → Bool) (x : α) : List α → List α
  | [] => [x]
  | y :: ys => if less x y then y :: insertLess less x ys else x :: y :: ys

/-- The call `sort.Slice(records, less)` of lines 112-114, embedded as the insertion sort
that the standard library runs on slices of up to 12 elements; on longer slices the library
does not promise the order of elements that `less` does not separate. -/
def sortSlice {α : Type} (records : List α) (less : α → α → Bool) : List α :=
  (records.foldl (fun sortedRev x => insertLess less x sortedRev) []).reverse

/-- The method `mysqlDB.Mark`. `make([]OutboxRecord, 0, limit)` at line 79 does not return
when `limit` is negative or exceeds `maxCap`, the largest capacity the runtime grants.
After the loop nothing reads `rows.Err()`. -/
def Mark (maxCap : Nat) (db : mysqlDB) (leaderID : UUID) (limit : Int) :
    GoResult (Option (List OutboxRecord) × Option GoError) :=
  let q := db.markStmt leaderID limit
  if q.err ≠ none then
    GoResult.returned (none, q.err)
  else if limit < 0 ∨ (maxCap : Int) < limit then
    GoResult.panicked
  else
    match markLoop q.rows.items [] with
    | Except.error err => GoResult.returned (none, some err)
    | Except.ok records =>
      GoResult.returned (some (sortSlice records (fun a b => decide (a.ID < b.ID))), none)

/-! ## `Purge` and `Reset` (lines 119-141) -/

/-- The method `mysqlDB.Purge`. The error of `res.RowsAffected()` is assigned to `_`. -/
def Purge (db : mysqlDB) (id : Int) : Bool × Option GoError :=
  let out := db.purgeStmt id
  if out.err ≠ none then
    (false, out.err)
  else
    let affected := out.res.affected
    if affected ≠ 1 then (false, none) else (true, out.err)

/-- The method `mysqlDB.Reset`. The error of `res.RowsAffected()` is assigned to `_`. -/
def Reset (db : mysqlDB) (id : Int) : Bool × Option GoError :=
  let out := db.resetStmt id
  if out.err ≠ none then
    (false, out.err)
  else
    let affected := out.res.affected
    if affected ≠ 1 then (false, none) else (true, out.err)

/-! ## `newMySQLBinding` (lines 24-66) -/

/-- A resource on which `Close()` can be called: a database handle or a prepared statement,
each named by a number. -/
inductive Resource where
  | db (h : Nat)
  | stmt (h : Nat)
  deriving DecidableEq, Repr

/-- The pair `(db, err)` returned by `dbProvider()`. -/
structure ProviderOutcome where
  db : Option Nat
  err : Option GoError
  deriving DecidableEq, Repr

/-- The pair `(stmt, err)` returned by one `db.Prepare(...)`. -/
structure PrepareOutcome where
  stmt : Option Nat
  err : Option GoError
  deriving DecidableEq, Repr

/-- What the collaborators of the constructor answer: the provider, and the three
`db.Prepare` calls in program order (mark, purge, reset). -/
structure BindingEnv where
  dbProvider : ProviderOutcome
  prepareMark : PrepareOutcome
  preparePurge : PrepareOutcome
  prepareReset : PrepareOutcome
  deriving DecidableEq, Repr

/-- The value `&database{db, markStmt, purgeStmt, resetStmt}` of lines 60-65. -/
structure database where
  db : Option Nat
  markStmt : Option Nat
  purgeStmt : Option Nat
  resetStmt : Option Nat
  deriving DecidableEq, Repr

/-- What a run of the constructor leaves behind: its result, and the `Close()` calls it
made, in order. -/
structure Construction where
  result : GoResult (Option database × Option GoError)
  closed : List Resource
  deriving DecidableEq, Repr

/-- Modelled from the spec: `closeResources` is a helper of the repository that is not under
`src/`; following "releases any partially-acquired resources" it closes every statement it
is given that is not nil, in the order given. -/
def closeResources (stmts : List (Option Nat)) : List Resource :=
  stmts.filterMap (fun s => s.map Resource.stmt)

/-- The deferred function of lines 28-35, run when the constructor leaves: the `Close()`
calls it makes for the values the variables hold at that moment. -/
def deferredCleanup (success : Bool) (db markStmt purgeStmt resetStmt : Option Nat) :
    List Resource :=
  if !success then
    (match db with
      | some h => [Resource.db h]
      | none => []) ++ closeResources [markStmt, purgeStmt, resetStmt]
  else
    []

/-- The function `newMySQLBinding`. `db.SetMaxOpenConns(2)` at line 41 dereferences `db`
and panics when the provider answered `(nil, nil)`; the deferred function runs then too. -/
def newMySQLBinding (env : BindingEnv) : Construction :=
  let db := env.dbProvider.db
  let err := env.dbProvider.err
  if err ≠ none then
    { result := GoResult.returned (none, err),
      closed := deferredCleanup false db none none none }
  else if db = none then
    { result := GoResult.panicked, closed := deferredCleanup false db none none none }
  else
    let markStmt := env.prepareMark.stmt
    let err := env.prepareMark.err
    if err ≠ none then
      { result := GoResult.returned (none, err),
        closed := deferredCleanup false db markStmt none none }
    else
      let purgeStmt := env.preparePurge.stmt
      let err := env.preparePurge.err
      if err ≠ none then
        { result := GoResult.returned (none, err),
          closed := deferredCleanup false db markStmt purgeStmt none }
      else
        let resetStmt := env.prepareReset.stmt
        let err := env.prepareReset.err
        if err ≠ none then
          { result := GoResult.returned (none, err),
            closed := deferredCleanup false db markStmt purgeStmt resetStmt }
        else
          { result := GoResult.returned
              (some { db := db, markStmt := markStmt, purgeStmt := purgeStmt,
                      resetStmt := resetStmt }, none),
            closed := deferredCleanup true db markStmt purgeStmt resetStmt }

/-! ## Concrete inputs -/

/-- A row with the given id and persisted header columns, whose first five columns convert
without error. -/
def sampleRow (id : Int) (keys values : List String) : Row :=
  { id := id, createTime := 0, kafkaTopic := "t", kafkaKey := "k", kafkaValue := some "v",
    kafkaHeaderKeys := keys, kafkaHeaderValues := values, leaderID := some 7,
    earlyErr := none }

/-- A row whose scan stops on the given storage error before the sixth destination. -/
def unscannableRow (id : Int) (msg : String) : Row :=
  { sampleRow id [] [] with earlyErr := some msg }

/-- An `Exec` that succeeds and reports `n` affected rows. -/
def execAffected (n : Int) : ExecOutcome :=
  { res := { affected := n, affectedErr := none }, err := none }

/-- A binding whose mark statement answers the given cursor without a query error and whose
purge and reset statements answer the given `Exec` outcome. -/
def sampleDB (rows : Rows) (exec : ExecOutcome) : mysqlDB :=
  { markStmt := fun _ _ => { rows := rows, err := none },
    purgeStmt := fun _ => exec,
    resetStmt := fun _ => exec }

/-- A binding whose mark query fails with the given error. -/
def failingQueryDB (e : GoError) : mysqlDB :=
  { markStmt := fun _ _ => { rows := { items := [], iterErr := none }, err := some e },
    purgeStmt := fun _ => execAffected 0,
    resetStmt := fun _ => execAffected 0 }

/-- The cursor of the scenario of the specification: rows with ids 5, 3, 9 in that order. -/
def scenarioRows : Rows :=
  { items := [sampleRow 5 [] [], sampleRow 3 [] [], sampleRow 9 [] []], iterErr := none }

/-- A cursor with one row whose persisted headers are two keys and one value. -/
def mismatchRows : Rows :=
  { items := [sampleRow 1 ["a", "b"] ["x"]], iterErr := none }

/-- A cursor with one row whose persisted headers are one key and one value. -/
def oneHeaderRows : Rows :=
  { items := [sampleRow 1 ["trace"] ["abc"]], iterErr := none }

/-- A cursor that stopped on a connectivity error before it delivered any row. -/
def brokenRows : Rows :=
  { items := [], iterErr := some (GoError.storage "connection lost") }

/-- A cursor without rows that ended normally. -/
def noRows : Rows :=
  { items := [], iterErr := none }

/-- An `Exec` that succeeds although reading its affected-row count fails. -/
def execCountUnreadable : ExecOutcome :=
  { res := { affected := 0, affectedErr := some (GoError.storage "count unavailable") },
    err := none }

/-- An `Exec` that fails with the given error. -/
def execFailing (e : GoError) : ExecOutcome :=
  { res := { affected := 0, affectedErr := none }, err := some e }

/-- Collaborators of the constructor: handle 1 is provided, statements 11 and 12 are
prepared, the third preparation fails. -/
def envResetFails : BindingEnv :=
  { dbProvider := { db := some 1, err := none },
    prepareMark := { stmt := some 11, err := none },
    preparePurge := { stmt := some 12, err := none },
    prepareReset := { stmt := none, err := some (GoError.storage "prepare failed") } }

/-! ## Auxiliary facts -/

/-- The scan of lines 84-96 returns an error for every row. -/
theorem rowsScan_fails (row : Row) (record : OutboxRecord) (keys values : List String) :
    ∃ e, (rowsScan row record keys values).2 = some e := by
  unfold rowsScan
  cases row.earlyErr with
  | none => exact ⟨GoError.destinationNotPointer 5, rfl⟩
  | some msg => exact ⟨GoError.storage msg, rfl⟩

/-- The error of the scan is never the error of unequal header counts. -/
theorem rowsScan_not_unequal (row : Row) (record : OutboxRecord) (keys values : List String)
    (n m : Nat) : (rowsScan row record keys values).2 ≠ some (GoError.unequalHeaders n m) := by
  unfold rowsScan
  cases row.earlyErr with
  | none => simp
  | some msg => simp

/-- The loop body returns the error of the scan. -/
theorem markRow_of_scan_err (row : Row) (e : GoError)
    (h : (rowsScan row emptyRecord [] []).2 = some e) : markRow row = Except.error e := by
  simp [markRow, scanFrame, h]

/-- The loop body never yields a record. -/
theorem markRow_never_ok (row : Row) (r : OutboxRecord) : markRow row ≠ Except.ok r := by
  obtain ⟨e, he⟩ := rowsScan_fails row emptyRecord [] []
  rw [markRow_of_scan_err row e he]
  simp

/-- The loop stops at the first row with the error of its scan. -/
theorem markLoop_first_row (row : Row) (rest : List Row) (acc : List OutboxRecord)
    (e : GoError) (h : (rowsScan row emptyRecord [] []).2 = some e) :
    markLoop (row :: rest) acc = Except.error e := by
  simp [markLoop, markRow_of_scan_err row e h]

/-- Within the capacity range, on a query without error, `Mark` returns the scan error of
the first delivered row and nil records. -/
theorem Mark_first_row (maxCap : Nat) (db : mysqlDB) (leaderID : UUID) (limit : Int)
    (row : Row) (rest : List Row) (e : GoError)
    (hl : 0 ≤ limit) (hcap : limit ≤ maxCap)
    (hq : (db.markStmt leaderID limit).err = none)
    (hitems : (db.markStmt leaderID limit).rows.items = row :: rest)
    (h : (rowsScan row emptyRecord [] []).2 = some e) :
    Mark maxCap db leaderID limit = GoResult.returned (none, some e) := by
  have hrange : ¬ (limit < 0 ∨ (maxCap : Int) < limit) := by omega
  simp [Mark, hq, hrange, hitems, markLoop_first_row row rest [] e h]

/-- Within the capacity range, on a query without error whose cursor delivers no row,
`Mark` returns the empty sequence and a nil error. -/
theorem Mark_no_rows (maxCap : Nat) (db : mysqlDB) (leaderID : UUID) (limit : Int)
    (hl : 0 ≤ limit) (hcap : limit ≤ maxCap)
    (hq : (db.markStmt leaderID limit).err = none)
    (hitems : (db.markStmt leaderID limit).rows.items = []) :
    Mark maxCap db leaderID limit = GoResult.returned (some [], none) := by
  have hrange : ¬ (limit < 0 ∨ (maxCap : Int) < limit) := by omega
  simp [Mark, hq, hrange, hitems, markLoop, sortSlice]

/-- A successful `Mark`: the query gave no error, the limit is within the capacity range,
the cursor delivered no row and the result is the empty sequence. -/
theorem Mark_ok (maxCap : Nat) (db : mysqlDB) (leaderID : UUID) (limit : Int)
    (recs : List OutboxRecord)
    (h : Mark maxCap db leaderID limit = GoResult.returned (some recs, none)) :
    (db.markStmt leaderID limit).err = none ∧ 0 ≤ limit ∧ limit ≤ maxCap ∧
      (db.markStmt leaderID limit).rows.items = [] ∧ recs = [] := by
  have hq : (db.markStmt leaderID limit).err = none := by
    by_contra hne
    simp [Mark, hne] at h
  have hrange : ¬ (limit < 0 ∨ (maxCap : Int) < limit) := by
    intro hr
    simp [Mark, hq, hr] at h
  have hl : 0 ≤ limit := by omega
  have hcap : limit ≤ maxCap := by omega
  cases hitems : (db.markStmt leaderID limit).rows.items with
  | nil =>
    rw [Mark_no_rows maxCap db leaderID limit hl hcap hq hitems] at h
    simp only [GoResult.returned.injEq, Prod.mk.injEq, Option.some.injEq, and_true] at h
    exact ⟨hq, hl, hcap, rfl, h.symm⟩
  | cons row rest =>
    obtain ⟨e, he⟩ := rowsScan_fails row emptyRecord [] []
    rw [Mark_first_row maxCap db leaderID limit row rest e hl hcap hq hitems he] at h
    simp at h

/-! ## The claims -/

/-- C1: on the scenario of the specification, a cursor that delivers rows with ids 5, 3, 9,
`Mark` returns no records and the error with which the scan of the first row is refused,
instead of the records with ids 3, 5, 9. -/
theorem Mark_fails_on_scenario :
    Mark 1000 (sampleDB scenarioRows (execAffected 0)) 1 10
      = GoResult.returned (none, some (GoError.destinationNotPointer 5)) := by
  decide

/-- C2: for a row that persists two header keys and one header value, `Mark` returns the
error with which the scan is refused, as for any other row, and not the error of unequal
header counts of line 102. -/
theorem Mark_mismatch_not_structural :
    Mark 1000 (sampleDB mismatchRows (execAffected 0)) 1 10
      = GoResult.returned (none, some (GoError.destinationNotPointer 5)) ∧
    Mark 1000 (sampleDB mismatchRows (execAffected 0)) 1 10
      ≠ GoResult.returned (none, some (GoError.unequalHeaders 2 1)) := by
  decide

/-- C4: when the cursor stops on a connectivity error before it delivers a row, `Mark`
returns the empty sequence together with a nil error. -/
theorem Mark_ignores_iteration_error :
    brokenRows.iterErr = some (GoError.storage "connection lost") ∧
    Mark 1000 (sampleDB brokenRows (execAffected 0)) 1 10
      = GoResult.returned (some [], none) := by
  decide

/-- C6: for a row that persists one header key and one header value, `Mark` returns no
record at all: the result is nil with the error with which the scan is refused. -/
theorem Mark_decodes_no_headers :
    Mark 1000 (sampleDB oneHeaderRows (execAffected 0)) 1 10
      = GoResult.returned (none, some (GoError.destinationNotPointer 5)) := by
  decide

/-- C10: the scan cannot fill the header slices. For every row, whatever headers it
persists, both slices have length 0 after the scan; the loop body never returns the error of
unequal header counts, so that branch is never taken; and every record of a successful
`Mark` has an empty header list, a successful `Mark` returning the empty sequence only. -/
theorem Mark_headers_never_populated :
    (∀ row : Row, (scanFrame row).keys.length = 0 ∧ (scanFrame row).values.length = 0) ∧
    (∀ (row : Row) (n m : Nat), markRow row ≠ Except.error (GoError.unequalHeaders n m)) ∧
    (∀ (maxCap : Nat) (db : mysqlDB) (leaderID : UUID) (limit : Int)
        (recs : List OutboxRecord),
      Mark maxCap db leaderID limit = GoResult.returned (some recs, none) →
        recs = [] ∧ ∀ r ∈ recs, r.KafkaHeaders = []) := by
  refine ⟨fun row => ⟨rfl, rfl⟩, ?_, ?_⟩
  · intro row n m h
    obtain ⟨e, he⟩ := rowsScan_fails row emptyRecord [] []
    rw [markRow_of_scan_err row e he] at h
    simp only [Except.error.injEq] at h
    subst h
    exact rowsScan_not_unequal row emptyRecord [] [] n m he
  · intro maxCap db leaderID limit recs h
    have hrecs := (Mark_ok maxCap db leaderID limit recs h).2.2.2.2
    subst hrecs
    exact ⟨rfl, by simp⟩

/-- C10 at a row that persists two header keys and two header values: both slices are empty
after the scan, the loop body returns the error of the scan, and the successful `Mark` on a
cursor without rows returns the empty sequence. -/
theorem Mark_headers_never_populated_witness :
    ((scanFrame (sampleRow 4 ["a", "b"] ["x", "y"])).keys.length = 0 ∧
      (scanFrame (sampleRow 4 ["a", "b"] ["x", "y"])).values.length = 0) ∧
    markRow (sampleRow 4 ["a", "b"] ["x", "y"]) ≠ Except.error (GoError.unequalHeaders 2 2) ∧
    Mark 1000 (sampleDB noRows (execAffected 0)) 1 10 = GoResult.returned (some [], none) ∧
    (([] : List OutboxRecord) = [] ∧ ∀ r ∈ ([] : List OutboxRecord), r.KafkaHeaders = []) :=
  ⟨Mark_headers_never_populated.1 (sampleRow 4 ["a", "b"] ["x", "y"]),
   Mark_headers_never_populated.2.1 (sampleRow 4 ["a", "b"] ["x", "y"]) 2 2,
   by decide,
   Mark_headers_never_populated.2.2 1000 (sampleDB noRows (execAffected 0)) 1 10 []
     (by decide)⟩

/-- C3: `Purge` and `Reset` return `(true, nil)` exactly when the execution succeeded and
one row was affected, `(false, nil)` when it succeeded and no row was affected, a non-nil
error exactly when the execution failed, the boolean being false then; `Reset` maps the
outcome of its statement as `Purge` maps the same outcome of its own. -/
theorem Purge_Reset_outcome (db : mysqlDB) (id : Int) :
    ((Purge db id = (true, none) ↔
        (db.purgeStmt id).err = none ∧ (db.purgeStmt id).res.affected = 1) ∧
      ((db.purgeStmt id).err = none → (db.purgeStmt id).res.affected = 0 →
        Purge db id = (false, none)) ∧
      ((Purge db id).2 ≠ none ↔ (db.purgeStmt id).err ≠ none) ∧
      ((db.purgeStmt id).err ≠ none → (Purge db id).1 = false)) ∧
    ((Reset db id = (true, none) ↔
        (db.resetStmt id).err = none ∧ (db.resetStmt id).res.affected = 1) ∧
      ((db.resetStmt id).err = none → (db.resetStmt id).res.affected = 0 →
        Reset db id = (false, none)) ∧
      ((Reset db id).2 ≠ none ↔ (db.resetStmt id).err ≠ none) ∧
      ((db.resetStmt id).err ≠ none → (Reset db id).1 = false)) ∧
    (∀ (other : mysqlDB) (id0 : Int),
      db.resetStmt id = other.purgeStmt id0 → Reset db id = Purge other id0) := by
  refine ⟨?_, ?_, ?_⟩
  · unfold Purge
    cases he : (db.purgeStmt id).err with
    | some e => simp [he]
    | none =>
      by_cases ha : (db.purgeStmt id).res.affected = 1
      · simp [he, ha]
      · simp [he, ha]
  · unfold Reset
    cases he : (db.resetStmt id).err with
    | some e => simp [he]
    | none =>
      by_cases ha : (db.resetStmt id).res.affected = 1
      · simp [he, ha]
      · simp [he, ha]
  · intro other id0 h
    simp [Reset, Purge, h]

/-- C3 at an execution that succeeds with one affected row, for `Purge` and for `Reset`. -/
theorem Purge_Reset_outcome_witness :
    Purge (sampleDB scenarioRows (execAffected 1)) 5 = (true, none) ∧
    Reset (sampleDB scenarioRows (execAffected 1)) 5 = (true, none) ∧
    Purge (sampleDB scenarioRows (execAffected 0)) 5 = (false, none) ∧
    (Purge (sampleDB scenarioRows (execFailing (GoError.storage "down"))) 5).1 = false :=
  ⟨(Purge_Reset_outcome (sampleDB scenarioRows (execAffected 1)) 5).1.1.2 (by decide),
   (Purge_Reset_outcome (sampleDB scenarioRows (execAffected 1)) 5).2.1.1.2 (by decide),
   (Purge_Reset_outcome (sampleDB scenarioRows (execAffected 0)) 5).1.2.1
     (by decide) (by decide),
   (Purge_Reset_outcome (sampleDB scenarioRows (execFailing (GoError.storage "down"))) 5).1.2.2.2
     (by decide)⟩

/-- C5: for every leader and every limit that is not negative, a successful `Mark` returns
at most `limit` records, and at limit 0 the empty sequence; on a query without error whose
cursor delivers no row, limit 0 does yield the empty sequence and a nil error. -/
theorem Mark_at_most_limit (maxCap : Nat) (db : mysqlDB) (leaderID : UUID) (limit : Int)
    (hl : 0 ≤ limit) :
    (∀ recs : List OutboxRecord,
      Mark maxCap db leaderID limit = GoResult.returned (some recs, none) →
        (recs.length : Int) ≤ limit ∧ (limit = 0 → recs = [])) ∧
    ((db.markStmt leaderID 0).err = none → (db.markStmt leaderID 0).rows.items = [] →
      Mark maxCap db leaderID 0 = GoResult.returned (some [], none)) := by
  constructor
  · intro recs h
    have hrecs := (Mark_ok maxCap db leaderID limit recs h).2.2.2.2
    subst hrecs
    exact ⟨by simpa using hl, fun _ => rfl⟩
  · intro hq hitems
    exact Mark_no_rows maxCap db leaderID 0 (le_refl 0) (by omega) hq hitems

/-- C5 at limit 0 and at limit 2 on a cursor without rows: `Mark` succeeds with the empty
sequence, which has at most 0, and at most 2, records. -/
theorem Mark_at_most_limit_witness :
    Mark 1000 (sampleDB noRows (execAffected 0)) 1 2 = GoResult.returned (some [], none) ∧
    ((([] : List OutboxRecord).length : Int) ≤ 2 ∧
      ((2 : Int) = 0 → ([] : List OutboxRecord) = [])) ∧
    Mark 1000 (sampleDB noRows (execAffected 0)) 1 0 = GoResult.returned (some [], none) :=
  ⟨by decide,
   (Mark_at_most_limit 1000 (sampleDB noRows (execAffected 0)) 1 2 (by decide)).1 []
     (by decide),
   (Mark_at_most_limit 1000 (sampleDB noRows (execAffected 0)) 1 0 (by decide)).2
     (by decide) (by decide)⟩

/-- C7: construction is failure-atomic. If the provider fails, or one of the three
preparations fails, the constructor returns a nil binding with the error of that step and
has closed the database handle and every statement obtained so far; if every step succeeds
it returns the binding that holds the handle and the three statements and has closed
nothing. -/
theorem newMySQLBinding_failure_atomic (env : BindingEnv) :
    (∀ e, env.dbProvider.err = some e →
      (newMySQLBinding env).result = GoResult.returned (none, some e) ∧
      (∀ h, env.dbProvider.db = some h → Resource.db h ∈ (newMySQLBinding env).closed)) ∧
    (∀ h, env.dbProvider.db = some h → env.dbProvider.err = none →
      (∀ e, env.prepareMark.err = some e →
        (newMySQLBinding env).result = GoResult.returned (none, some e) ∧
        Resource.db h ∈ (newMySQLBinding env).closed ∧
        (∀ m, env.prepareMark.stmt = some m →
          Resource.stmt m ∈ (newMySQLBinding env).closed)) ∧
      (env.prepareMark.err = none → ∀ e, env.preparePurge.err = some e →
        (newMySQLBinding env).result = GoResult.returned (none, some e) ∧
        Resource.db h ∈ (newMySQLBinding env).closed ∧
        (∀ m, env.prepareMark.stmt = some m →
          Resource.stmt m ∈ (newMySQLBinding env).closed) ∧
        (∀ p, env.preparePurge.stmt = some p →
          Resource.stmt p ∈ (newMySQLBinding env).closed)) ∧
      (env.prepareMark.err = none → env.preparePurge.err = none →
        ∀ e, env.prepareReset.err = some e →
        (newMySQLBinding env).result = GoResult.returned (none, some e) ∧
        Resource.db h ∈ (newMySQLBinding env).closed ∧
        (∀ m, env.prepareMark.stmt = some m →
          Resource.stmt m ∈ (newMySQLBinding env).closed) ∧
        (∀ p, env.preparePurge.stmt = some p →
          Resource.stmt p ∈ (newMySQLBinding env).closed) ∧
        (∀ r, env.prepareReset.stmt = some r →
          Resource.stmt r ∈ (newMySQLBinding env).closed)) ∧
      (env.prepareMark.err = none → env.preparePurge.err = none →
        env.prepareReset.err = none →
        (newMySQLBinding env).result = GoResult.returned
          (some { db := some h, markStmt := env.prepareMark.stmt,
                  purgeStmt := env.preparePurge.stmt,
                  resetStmt := env.prepareReset.stmt }, none) ∧
        (newMySQLBinding env).closed = [])) := by
  refine ⟨?_, ?_⟩
  · intro e he
    refine ⟨by simp [newMySQLBinding, he], ?_⟩
    intro h hh
    simp [newMySQLBinding, he, hh, deferredCleanup]
  · intro h hh hp
    refine ⟨?_, ?_, ?_, ?_⟩
    · intro e he
      refine ⟨by simp [newMySQLBinding, hp, hh, he], ?_, ?_⟩
      · simp [newMySQLBinding, hp, hh, he, deferredCleanup]
      · intro m hm
        simp [newMySQLBinding, hp, hh, he, hm, deferredCleanup, closeResources]
    · intro hm0 e he
      refine ⟨by simp [newMySQLBinding, hp, hh, hm0, he], ?_, ?_, ?_⟩
      · simp [newMySQLBinding, hp, hh, hm0, he, deferredCleanup]
      · intro m hm
        simp [newMySQLBinding, hp, hh, hm0, he, hm, deferredCleanup, closeResources]
      · intro p hpu
        simp [newMySQLBinding, hp, hh, hm0, he, hpu, deferredCleanup, closeResources]
    · intro hm0 hp0 e he
      refine ⟨by simp [newMySQLBinding, hp, hh, hm0, hp0, he], ?_, ?_, ?_, ?_⟩
      · simp [newMySQLBinding, hp, hh, hm0, hp0, he, deferredCleanup]
      · intro m hm
        simp [newMySQLBinding, hp, hh, hm0, hp0, he, hm, deferredCleanup, closeResources]
      · intro p hpu
        simp [newMySQLBinding, hp, hh, hm0, hp0, he, hpu, deferredCleanup, closeResources]
      · intro r hr
        simp [newMySQLBinding, hp, hh, hm0, hp0, he, hr, deferredCleanup, closeResources]
    · intro hm0 hp0 hr0
      simp [newMySQLBinding, hp, hh, hm0, hp0, hr0, deferredCleanup]

/-- C7 when the third preparation fails: the constructor returns a nil binding with that
error, and the handle and the two statements prepared before are closed. -/
theorem newMySQLBinding_failure_atomic_witness :
    (newMySQLBinding envResetFails).result
        = GoResult.returned (none, some (GoError.storage "prepare failed")) ∧
      Resource.db 1 ∈ (newMySQLBinding envResetFails).closed ∧
      (∀ m, envResetFails.prepareMark.stmt = some m →
        Resource.stmt m ∈ (newMySQLBinding envResetFails).closed) ∧
      (∀ p, envResetFails.preparePurge.stmt = some p →
        Resource.stmt p ∈ (newMySQLBinding envResetFails).closed) ∧
      (∀ r, envResetFails.prepareReset.stmt = some r →
        Resource.stmt r ∈ (newMySQLBinding envResetFails).closed) :=
  (newMySQLBinding_failure_atomic envResetFails).2 1 (by decide) (by decide) |>.2.2.1
    (by decide) (by decide) (GoError.storage "prepare failed") (by decide)

/-- C8, as stated, fails: when the statement of `Purge` runs without error and reading
its affected-row count yields an error, `Purge` returns a nil error, not that error. -/
theorem Purge_discards_count_error :
    ((sampleDB scenarioRows execCountUnreadable).purgeStmt 5).err = none ∧
    ((sampleDB scenarioRows execCountUnreadable).purgeStmt 5).res.affectedErr
      = some (GoError.storage "count unavailable") ∧
    Purge (sampleDB scenarioRows execCountUnreadable) 5 = (false, none) ∧
    (Purge (sampleDB scenarioRows execCountUnreadable) 5).2
      ≠ some (GoError.storage "count unavailable") := by
  decide

/-- C8, amended: an error `e` of the query of `Mark` is returned as it is with nil records;
so is, for a limit from 0 to the largest capacity `make` grants, the error `e` of the scan
of the first delivered row; an error `e` of the statement execution of `Purge` or `Reset` is
returned as it is with a false boolean; when that execution succeeds the returned error is
nil, whatever reading the affected-row count answered. -/
theorem storage_errors_returned_verbatim (maxCap : Nat) (db : mysqlDB) (e : GoError) :
    (∀ (leaderID : UUID) (limit : Int), (db.markStmt leaderID limit).err = some e →
      Mark maxCap db leaderID limit = GoResult.returned (none, some e)) ∧
    (∀ (leaderID : UUID) (limit : Int) (row : Row) (rest : List Row),
      0 ≤ limit → limit ≤ maxCap → (db.markStmt leaderID limit).err = none →
      (db.markStmt leaderID limit).rows.items = row :: rest →
      (rowsScan row emptyRecord [] []).2 = some e →
      Mark maxCap db leaderID limit = GoResult.returned (none, some e)) ∧
    (∀ id : Int, (db.purgeStmt id).err = some e → Purge db id = (false, some e)) ∧
    (∀ id : Int, (db.resetStmt id).err = some e → Reset db id = (false, some e)) ∧
    (∀ id : Int, (db.purgeStmt id).err = none → (Purge db id).2 = none) ∧
    (∀ id : Int, (db.resetStmt id).err = none → (Reset db id).2 = none) := by
  refine ⟨?_, ?_, ?_, ?_, ?_, ?_⟩
  · intro leaderID limit he
    simp [Mark, he]
  · intro leaderID limit row rest hl hcap hq hitems hrow
    exact Mark_first_row maxCap db leaderID limit row rest e hl hcap hq hitems hrow
  · intro id he
    simp [Purge, he]
  · intro id he
    simp [Reset, he]
  · intro id he
    by_cases ha : (db.purgeStmt id).res.affected = 1
    · simp [Purge, he, ha]
    · simp [Purge, he, ha]
  · intro id he
    by_cases ha : (db.resetStmt id).res.affected = 1
    · simp [Reset, he, ha]
    · simp [Reset, he, ha]

/-- C8, amended, at concrete inputs: a failing query, a first row whose scan stops on a
storage error, and a failing execution of the purge statement each give back their own
error. -/
theorem storage_errors_returned_verbatim_witness :
    Mark 1000 (failingQueryDB (GoError.storage "down")) 1 10
      = GoResult.returned (none, some (GoError.storage "down")) ∧
    Mark 1000 (sampleDB { items := [unscannableRow 3 "down", sampleRow 9 [] []],
                          iterErr := none } (execAffected 0)) 1 10
      = GoResult.returned (none, some (GoError.storage "down")) ∧
    Purge (sampleDB scenarioRows (execFailing (GoError.storage "down"))) 5
      = (false, some (GoError.storage "down")) :=
  ⟨(storage_errors_returned_verbatim 1000 (failingQueryDB (GoError.storage "down"))
      (GoError.storage "down")).1 1 10 (by decide),
   (storage_errors_returned_verbatim 1000
      (sampleDB { items := [unscannableRow 3 "down", sampleRow 9 [] []],
                  iterErr := none } (execAffected 0))
      (GoError.storage "down")).2.1 1 10 (unscannableRow 3 "down") [sampleRow 9 [] []]
      (by decide) (by decide) (by decide) (by decide) (by decide),
   (storage_errors_returned_verbatim 1000
      (sampleDB scenarioRows (execFailing (GoError.storage "down")))
      (GoError.storage "down")).2.2.1 5 (by decide)⟩

end Goharvest
